import Mathlib

/-!
Verification development for the database session/transaction layer of the
AtkDefUI repository (file src/utils/db_utils.py).  The Python code is shallowly
embedded: pure query logic becomes list functions, the control flow of the
context manager session_scope becomes an explicit effect machine whose inputs
say which underlying operation raises, and whose output is the list of
performed session operations together with the propagated exception.
-/

/-- Python values as they appear in keyword-argument filters.  Lists are
modelled by their length, which is all truthiness needs. -/
inductive PyVal where
  | none
  | bool (b : Bool)
  | int (n : Int)
  | str (s : String)
  | list (n : Nat)
deriving DecidableEq, Repr

/-- Exceptions of the embedded layer.  operational carries whether its args
tuple equals TIMEOUT_EXCEPTION_ARGS (db_utils.py line 60) and whether its text
contains the word deadlock; generic is any other exception. -/
inductive Exn where
  | notFound
  | locked
  | timeout
  | noResultFound
  | multipleResultsFound
  | valueError
  | operational (timeoutArgs : Bool) (deadlockText : Bool)
  | generic (deadlockText : Bool)
deriving DecidableEq, Repr

/-- Whether the exception is an OperationalError whose args equal
TIMEOUT_EXCEPTION_ARGS, the condition on db_utils.py line 257. -/
def Exn.isOperationalTimeoutSig : Exn → Bool
  | .operational true _ => true
  | _ => false

/-- Whether str(e) contains the substring deadlock (db_utils.py line 254). -/
def Exn.deadlock : Exn → Bool
  | .operational _ d => d
  | .generic d => d
  | _ => false

/-- The translation applied on re-raise (db_utils.py lines 257-260): the
user-cancellation OperationalError becomes the typed Timeout, everything else
is re-raised unchanged. -/
def reraise (e : Exn) : Exn :=
  if e.isOperationalTimeoutSig then Exn.timeout else e

/-- Transaction isolation levels, from the IsolationLevel enum
(db_utils.py lines 79-84). -/
inductive IsolationLevel where
  | READ_COMMITTED
  | READ_UNCOMMITTED
  | REPEATABLE_READ
  | SERIALIZABLE
  | AUTOCOMMIT
deriving DecidableEq, Repr

/-- The keyword options of session_scope (db_utils.py lines 188-197). -/
structure ScopeOpts where
  timeout : Option Nat
  statement_timeout : Option Nat
  lock_timeout : Option Nat
  isolation_level : Option IsolationLevel
  application_name : Option String
  nested : Bool
deriving DecidableEq, Repr

/-- Outcome oracle for each effectful operation performed by session_scope:
none means the operation succeeds, some e means it raises e. -/
structure ScopeFx where
  execStatementTimeout : Option Exn
  execLockTimeout : Option Exn
  setIsolation : Option Exn
  execAppName : Option Exn
  body : Option Exn
  commit : Option Exn
  rollback : Option Exn
  logPgStat : Option Exn
  timerCancel : Option Exn
  close : Option Exn
deriving DecidableEq, Repr

/-- Session operations recorded by a run of session_scope.  An event is
recorded only when the corresponding call succeeds. -/
inductive Ev where
  | timerArm
  | commit
  | rollback
  | timerCancel
  | close
deriving DecidableEq, Repr

/-- Number of occurrences of an event in a trace. -/
def countEv (x : Ev) : List Ev → Nat
  | [] => 0
  | e :: t => (if e = x then 1 else 0) + countEv x t

/-- An optional setup statement: skipped when its option is not set, otherwise
it fails exactly when the oracle says so. -/
def step (enabled : Bool) (r : Option Exn) : Option Exn :=
  match r with
  | none => none
  | some e => if enabled then some e else none

/-- The try block of session_scope up to and including commit
(db_utils.py lines 221-246): SET statement_timeout, SET lock_timeout,
isolation level, timer arming, SET application_name, the yielded body, commit.
Returns whether the timer was armed, the recorded events, and the first
exception if any. -/
def tryPhase (o : ScopeOpts) (fx : ScopeFx) : Bool × List Ev × Option Exn :=
  match step o.statement_timeout.isSome fx.execStatementTimeout with
  | some e => (false, [], some e)
  | none =>
    match step o.lock_timeout.isSome fx.execLockTimeout with
    | some e => (false, [], some e)
    | none =>
      match step o.isolation_level.isSome fx.setIsolation with
      | some e => (false, [], some e)
      | none =>
        let armed := o.timeout.isSome
        let armEv := if armed then [Ev.timerArm] else []
        match fx.execAppName with
        | some e => (armed, armEv, some e)
        | none =>
          match fx.body with
          | some e => (armed, armEv, some e)
          | none =>
            match fx.commit with
            | some e => (armed, armEv, some e)
            | none => (armed, armEv ++ [Ev.commit], none)

/-- The except block of session_scope (db_utils.py lines 248-260): rollback,
the deadlock diagnostic dump, then either the typed Timeout or the original
exception. -/
def exceptPhase (fx : ScopeFx) (e : Exn) : List Ev × Option Exn :=
  match fx.rollback with
  | some f => ([], some f)
  | none =>
    match (if e.deadlock then fx.logPgStat else none) with
    | some g => ([Ev.rollback], some g)
    | none => ([Ev.rollback], some (reraise e))

/-- The finally block of session_scope (db_utils.py lines 262-266): cancel the
timer if one was armed, then close the session.  As in Python, an exception
raised inside finally replaces the incoming outcome, and an exception from
timer.cancel skips session.close. -/
def finallyPhase (fx : ScopeFx) (armed : Bool) (incoming : Option Exn) :
    List Ev × Option Exn :=
  if armed then
    match fx.timerCancel with
    | some f => ([], some f)
    | none =>
      match fx.close with
      | some g => ([Ev.timerCancel], some g)
      | none => ([Ev.timerCancel, Ev.close], incoming)
  else
    match fx.close with
    | some g => ([], some g)
    | none => ([Ev.close], incoming)

/-- A full run of session_scope (db_utils.py lines 188-266): the try block,
the except block when the try block raised, and the finally block. -/
def runScope (o : ScopeOpts) (fx : ScopeFx) : List Ev × Option Exn :=
  match tryPhase o fx with
  | (armed, evs, none) =>
    let fin := finallyPhase fx armed none
    (evs ++ fin.1, fin.2)
  | (armed, evs, some e) =>
    let ex := exceptPhase fx e
    let fin := finallyPhase fx armed ex.2
    (evs ++ ex.1 ++ fin.1, fin.2)

/-- The default options of session_scope: every keyword is None. -/
def scopeDefaults : ScopeOpts := ⟨none, none, none, none, none, false⟩

/-- An effect oracle where only the body can raise: every session operation of
the scope itself succeeds. -/
def pureFx (b : Option Exn) : ScopeFx :=
  ⟨none, none, none, none, b, none, none, none, none, none⟩

/-- Run session_scope with default options around a body whose outcome is b,
as the helpers of db_utils.py do via with session_scope(). -/
def run_with_body (b : Option Exn) : List Ev × Option Exn :=
  runScope scopeDefaults (pureFx b)

/-- Counterexample input for the timer-disarm clause: a scope with a wall-clock
timeout whose timer disarm call raises. -/
def c1Opts : ScopeOpts := ⟨some 5, none, none, none, none, false⟩

/-- Effects for the counterexample: everything succeeds except timer.cancel. -/
def c1Fx : ScopeFx :=
  ⟨none, none, none, none, none, none, none, none, some (Exn.generic false), none⟩

/-- Witness input for the scope invariant: an exception path with deadlock
text, statement timeout and wall-clock timeout configured. -/
def c1WitOpts : ScopeOpts := ⟨some 1, some 2, some 2, some IsolationLevel.SERIALIZABLE, none, false⟩

/-- Witness effects: the body raises an exception whose text mentions a
deadlock; all scope-owned operations succeed. -/
def c1WitFx : ScopeFx :=
  ⟨none, none, none, none, some (Exn.generic true), none, none, none, none, none⟩

/-- Counterexample effects for the Timeout translation: no wall-clock timeout
is armed, yet the body raises the user-cancellation OperationalError. -/
def c2Fx : ScopeFx :=
  ⟨none, none, none, none, some (Exn.operational true false), none, none, none, none, none⟩

/-- Witness options for the re-raise rule: a scope with an armed timeout. -/
def c2WitOpts : ScopeOpts := ⟨some 30, none, none, none, some "worker", false⟩

/-- Witness effects: the statement is cancelled by the armed timer, surfacing
as the user-cancellation OperationalError. -/
def c2WitFx : ScopeFx :=
  ⟨none, none, none, none, some (Exn.operational true false), none, none, none, none, none⟩

/-- The single-quote character, written by code point to keep it out of the
source text proper. -/
def squote : Char := Char.ofNat 39

/-- Bytes kept verbatim by urllib quote with the default safe set: ASCII
letters, digits, underscore, dot, hyphen, tilde and the slash. -/
def quote_safe (b : Nat) : Bool :=
  (decide (65 ≤ b) && decide (b ≤ 90)) ||
  (decide (97 ≤ b) && decide (b ≤ 122)) ||
  (decide (48 ≤ b) && decide (b ≤ 57)) ||
  decide (b = 45) || decide (b = 46) || decide (b = 95) ||
  decide (b = 126) || decide (b = 47)

/-- Uppercase hexadecimal digit for a value below 16. -/
def hexUpper (n : Nat) : Char :=
  if n < 10 then Char.ofNat (48 + n) else Char.ofNat (55 + n)

/-- Percent-encoding of one byte, as urllib quote does: safe bytes verbatim,
all others as a percent sign and two uppercase hex digits. -/
def quoteByte (b : Nat) : List Char :=
  if quote_safe b then [Char.ofNat b] else ['%', hexUpper (b / 16), hexUpper (b % 16)]

/-- six.moves.urllib_parse.quote over the UTF-8 bytes of the input
(db_utils.py line 243). -/
def urlquote (bs : List Nat) : List Char :=
  (bs.map quoteByte).flatten

/-- The SQL text sent on db_utils.py line 243: the quoted application name
interpolated between two single quotes of the SET statement. -/
def set_application_name_sql (bs : List Nat) : List Char :=
  "SET application_name = ".toList ++ [squote] ++ urlquote bs ++ [squote, ';']

/-- A value of a keyword predicate: either a plain Python value or a
ClauseElement, the latter modelled by the row condition it denotes. -/
inductive PredVal where
  | val (v : PyVal)
  | clause (sat : List (String × PyVal) → Bool)

/-- True when the predicate value is a plain value and not a ClauseElement. -/
def PredVal.isVal : PredVal → Bool
  | .val _ => true
  | .clause _ => false

/-- A stored row: a surrogate identity plus its field values. -/
structure Rec where
  id : Nat
  fields : List (String × PyVal)
deriving DecidableEq, Repr

/-- The non-ClauseElement subset of a predicate, used to seed a new record
(db_utils.py line 305). -/
def seedParams (pred : List (String × PredVal)) : List (String × PyVal) :=
  pred.filterMap fun kv =>
    match kv.2 with
    | PredVal.val v => some (kv.1, v)
    | PredVal.clause _ => none

/-- Whether a record satisfies a keyword predicate: plain values compare by
equality against the field, ClauseElements by their denoted condition. -/
def predMatches (pred : List (String × PredVal)) (r : Rec) : Bool :=
  pred.all fun kv =>
    match kv.2 with
    | PredVal.val v => decide (List.lookup kv.1 r.fields = some v)
    | PredVal.clause sat => sat r.fields

/-- get_or_create (db_utils.py lines 300-309): the first match if any,
otherwise a new record seeded from the non-ClauseElement subset of the
predicate and appended to the store. -/
def get_or_create (nextId : Nat) (pred : List (String × PredVal))
    (store : List Rec) : (Rec × Bool) × List Rec :=
  match store.find? (fun r => predMatches pred r) with
  | some inst => ((inst, false), store)
  | none =>
    ((⟨nextId, seedParams pred⟩, true), store ++ [⟨nextId, seedParams pred⟩])

/-- delete_model (db_utils.py lines 388-396): one() over the matches, the
NoResultFound branch swallowed into a no-op, the unique match deleted. -/
def delete_model (pred : List (String × PredVal)) (tbl : List Rec) :
    Except Exn (List Rec) :=
  match tbl.filter (fun r => predMatches pred r) with
  | [] => Except.ok tbl
  | [r] => Except.ok (tbl.filter (fun x => x.id != r.id))
  | _ :: _ :: _ => Except.error Exn.multipleResultsFound

/-- Exception view of a helper result, feeding the scope body oracle. -/
def exnOfResult {α : Type} : Except Exn α → Option Exn
  | Except.ok _ => none
  | Except.error e => some e

/-- delete_model run inside its session_scope: trace and outcome of the
surrounding scope. -/
def delete_model_events (pred : List (String × PredVal)) (tbl : List Rec) :
    List Ev × Option Exn :=
  run_with_body (exnOfResult (delete_model pred tbl))

/-- Python truthiness of the modelled values. -/
def truthy : PyVal → Bool
  | PyVal.none => false
  | PyVal.bool b => b
  | PyVal.int n => decide (n ≠ 0)
  | PyVal.str s => decide (s ≠ "")
  | PyVal.list n => decide (n ≠ 0)

/-- The keep condition of the filter comprehension in list_models
(db_utils.py lines 341-345): v or v is False or v is None. -/
def filter_kept (v : PyVal) : Bool :=
  truthy v || decide (v = PyVal.bool false) || decide (v = PyVal.none)

/-- The keyword filters that list_models actually passes to the query. -/
def list_models_applied_filters (kwargs : List (String × PyVal)) :
    List (String × PyVal) :=
  kwargs.filter fun kv => filter_kept kv.2

/-- The limiting part of list_models (db_utils.py lines 360-367) over the
already filtered and ordered row sequence: validate the page, recompute the
offset for pages other than one, then apply offset and limit. -/
def list_models {α : Type} (disable_limiting : Bool) (limit offset : Nat)
    (page : Int) (rows : List α) : Except Exn (List α) :=
  if disable_limiting then Except.ok rows
  else if page ≤ 0 then Except.error Exn.valueError
  else
    let off := if page ≠ 1 then limit * (page - 1).toNat else offset
    Except.ok ((rows.drop off).take limit)

/-- A row as seen by the locking helpers: its record plus whether its row
lock is currently held by another transaction. -/
structure LockRow where
  row : Rec
  lockedByOther : Bool
deriving DecidableEq, Repr

/-- Whether a lockable row satisfies the keyword predicate. -/
def lockMatches (pred : List (String × PredVal)) (lr : LockRow) : Bool :=
  predMatches pred lr.row

/-- Execution of where(...).with_for_update(nowait).one(): under NO_WAIT a row
held by another transaction raises OperationalError during the scan, then
one() raises NoResultFound on zero rows and MultipleResultsFound on more than
one. -/
def with_for_update_one (nowait : Bool) (ms : List LockRow) :
    Except Exn LockRow :=
  if nowait && ms.any (fun r => r.lockedByOther) then
    Except.error (Exn.operational false false)
  else
    match ms with
    | [] => Except.error Exn.noResultFound
    | [r] => Except.ok r
    | _ :: _ :: _ => Except.error Exn.multipleResultsFound

/-- The worker behind lock_one (db_utils.py lines 399-406): NoResultFound is
translated to NotFound and OperationalError to the Locked exception type. -/
def lock_one_query (nowait : Bool) (pred : List (String × PredVal))
    (tbl : List LockRow) : Except Exn LockRow :=
  match with_for_update_one nowait (tbl.filter (fun r => lockMatches pred r)) with
  | Except.error Exn.noResultFound => Except.error Exn.notFound
  | Except.error (Exn.operational _ _) => Except.error Exn.locked
  | r => r

/-- lock_one with scoped=True (db_utils.py lines 409-418): the lock call runs
inside its own session_scope; trace and outcome of that scope. -/
def lock_one_run (nowait : Bool) (pred : List (String × PredVal))
    (tbl : List LockRow) : List Ev × Option Exn :=
  run_with_body (exnOfResult (lock_one_query nowait pred tbl))

/-- lock_by_query (db_utils.py lines 439-462) over the result rows of the
given query: with first, the first row or NotFound; otherwise one() with
NoResultFound translated to NotFound, MultipleResultsFound propagating, and a
NO_WAIT lock conflict translated to the Locked exception type. -/
def lock_by_query (nowait first : Bool) (rows : List LockRow) :
    Except Exn LockRow :=
  if first then
    match rows with
    | [] => Except.error Exn.notFound
    | r :: _ =>
      if nowait && r.lockedByOther then Except.error Exn.locked
      else Except.ok r
  else
    if nowait && rows.any (fun r => r.lockedByOther) then Except.error Exn.locked
    else
      match rows with
      | [] => Except.error Exn.notFound
      | [r] => Except.ok r
      | _ :: _ :: _ => Except.error Exn.multipleResultsFound

/-- The module lifecycle globals of db_utils.py: the prepared flag and the
identities of the engines and the session factory.  Identities are drawn from
a fresh counter, modelling object identity of newly created pools. -/
structure ModuleState where
  prepared : Bool
  engine : Option Nat
  roEngine : Option Nat
  sessionFactory : Option Nat
deriving DecidableEq, Repr

/-- prepare_module (db_utils.py lines 129-149): a no-op when already
prepared, otherwise both engines and the scoped session factory are created
with fresh identities. -/
def prepare_module (st : ModuleState) (fresh : Nat) : ModuleState × Nat :=
  if st.prepared then (st, fresh)
  else (⟨true, some fresh, some (fresh + 1), some (fresh + 2)⟩, fresh + 3)

/-- shutdown_module (db_utils.py lines 152-171): when prepared, disposes both
engines and resets every global to the uninitialized state; returns the
identities of the disposed pools. -/
def shutdown_module (st : ModuleState) : ModuleState × List Nat :=
  if st.prepared then
    (⟨false, none, none, none⟩, st.engine.toList ++ st.roEngine.toList)
  else (st, [])

/-- Concrete rows and predicates used by the witnesses. -/
def rowA : LockRow := ⟨⟨1, [("name", PyVal.str "alpha")]⟩, false⟩

/-- The same row as rowA but with its lock held by another transaction. -/
def rowALocked : LockRow := ⟨⟨1, [("name", PyVal.str "alpha")]⟩, true⟩

/-- A second unlocked row, used for the multiple-match witness. -/
def rowB : LockRow := ⟨⟨2, [("name", PyVal.str "beta")]⟩, false⟩

/-- A keyword predicate selecting records whose name field is alpha. -/
def predAlpha : List (String × PredVal) := [("name", PredVal.val (PyVal.str "alpha"))]

/-- A keyword predicate matching no record of the witness tables. -/
def predMissing : List (String × PredVal) := [("name", PredVal.val (PyVal.str "gamma"))]

/-- Witness table for delete_model: two records neither of which is gamma. -/
def tblWit : List Rec :=
  [⟨1, [("name", PyVal.str "alpha")]⟩, ⟨2, [("name", PyVal.str "beta")]⟩]

/-- Witness keyword arguments for the filter-selection claim. -/
def kwargsWit : List (String × PyVal) :=
  [("active", PyVal.bool false), ("q", PyVal.str ""),
   ("team", PyVal.str "alpha"), ("note", PyVal.none)]

/-- A predicate whose only entry is a ClauseElement on the score key: the
relational expression denotes the condition that the score field equals ten.
filter_by filters on the clause, but line 305 excludes it from the creation
params, so a record created from this predicate has no score field. -/
def predClause : List (String × PredVal) :=
  [("score",
    PredVal.clause (fun fields => decide (List.lookup "score" fields = some (PyVal.int 10))))]


/-! ## Helper lemmas -/

theorem countEv_append (x : Ev) (l₁ l₂ : List Ev) :
    countEv x (l₁ ++ l₂) = countEv x l₁ + countEv x l₂ := by
  induction l₁ with
  | nil => simp [countEv]
  | cons e t ih => simp [countEv, ih]; omega

theorem tryPhase_counts (o : ScopeOpts) (fx : ScopeFx) :
    countEv Ev.rollback (tryPhase o fx).2.1 = 0 ∧
    countEv Ev.close (tryPhase o fx).2.1 = 0 ∧
    countEv Ev.commit (tryPhase o fx).2.1 =
      (if (tryPhase o fx).2.2 = none then 1 else 0) := by
  unfold tryPhase
  repeat' split
  all_goals
    cases h : o.timeout.isSome <;>
      simp_all [countEv, countEv_append]

theorem exceptPhase_events (fx : ScopeFx) (e : Exn) (hr : fx.rollback = none) :
    (exceptPhase fx e).1 = [Ev.rollback] := by
  unfold exceptPhase
  rw [hr]
  cases h : (if e.deadlock then fx.logPgStat else none) <;> simp

theorem finallyPhase_clean (fx : ScopeFx) (armed : Bool) (incoming : Option Exn)
    (htc : fx.timerCancel = none) (hcl : fx.close = none) :
    finallyPhase fx armed incoming =
      ((if armed then [Ev.timerCancel, Ev.close] else [Ev.close]), incoming) := by
  cases armed <;> simp [finallyPhase, htc, hcl]

/-! ## C1 and C2: session_scope commit/rollback/close and re-raise rule -/

/-- C1 counterexample: in the run c1Opts/c1Fx the scope's wall-clock timer is
armed and disarming it raises, and then the session is never closed — the
claim that exactly one close happens even if timer disarming errors is false
of the code, whose finally block runs timer.cancel before session.close. -/
theorem session_scope_close_skipped :
    countEv Ev.close (runScope c1Opts c1Fx).1 = 0 ∧
    c1Opts.timeout = some 5 ∧
    c1Fx.timerCancel = some (Exn.generic false) := by
  decide

/-- C1 (amended): provided that rollback, timer disarming and close do not
themselves raise, every run of session_scope performs exactly one of commit
and rollback and closes the session exactly once, on the normal-completion
path and on every exception path, including failures while applying the
statement and lock timeouts, the isolation level, or the application tag. -/
theorem session_scope_single_terminal_and_close (o : ScopeOpts) (fx : ScopeFx)
    (hr : fx.rollback = none) (htc : fx.timerCancel = none)
    (hcl : fx.close = none) :
    countEv Ev.commit (runScope o fx).1 + countEv Ev.rollback (runScope o fx).1 = 1 ∧
    countEv Ev.close (runScope o fx).1 = 1 := by
  obtain ⟨hr0, hc0, hcm⟩ := tryPhase_counts o fx
  unfold runScope
  cases htp : tryPhase o fx with
  | mk armed rest =>
    cases rest with
    | mk evs r =>
      rw [htp] at hr0 hc0 hcm
      simp only at hr0 hc0 hcm
      cases r with
      | none =>
        dsimp only
        rw [finallyPhase_clean fx armed none htc hcl]
        simp only [countEv_append, hr0, hc0]
        simp at hcm
        cases armed <;> simp [countEv, hcm]
      | some e =>
        dsimp only
        have hexf : exceptPhase fx e = ([Ev.rollback], (exceptPhase fx e).2) := by
          rw [← exceptPhase_events fx e hr]
        rw [hexf, finallyPhase_clean fx armed _ htc hcl]
        simp only [countEv_append, hr0, hc0]
        simp at hcm
        cases armed <;> simp [countEv, hcm]

/-- C1 witness: a concrete exception-path run with armed timer, deadlock text
and all configured setup statements, showing one rollback-or-commit and one
close. -/
theorem session_scope_single_terminal_and_close_witness :
    countEv Ev.commit (runScope c1WitOpts c1WitFx).1 +
      countEv Ev.rollback (runScope c1WitOpts c1WitFx).1 = 1 ∧
    countEv Ev.close (runScope c1WitOpts c1WitFx).1 = 1 :=
  session_scope_single_terminal_and_close c1WitOpts c1WitFx rfl rfl rfl

/-- C2 counterexample: with the default options no wall-clock timeout is
armed, yet when the body raises the user-cancellation OperationalError the
scope raises the typed Timeout — the code does not require a timeout to have
been armed, contradicting the claim's AND condition. -/
theorem session_scope_timeout_without_timer :
    (runScope scopeDefaults c2Fx).2 = some Exn.timeout ∧
    scopeDefaults.timeout = none := by
  decide

/-- C2 (amended): when the body raises e and the scope's own operations
succeed, session_scope rolls back exactly once and re-raises e, except that it
raises the typed Timeout exactly when e is an OperationalError whose args are
the user-cancellation signature, regardless of whether a wall-clock timeout
was armed for the scope; in particular a statement cancelled after exceeding
the configured wall-clock timeout surfaces to the caller as Timeout. -/
theorem session_scope_reraise_rule (o : ScopeOpts) (fx : ScopeFx) (e : Exn)
    (h1 : fx.execStatementTimeout = none) (h2 : fx.execLockTimeout = none)
    (h3 : fx.setIsolation = none) (h4 : fx.execAppName = none)
    (hb : fx.body = some e) (hr : fx.rollback = none)
    (hg : fx.logPgStat = none) (htc : fx.timerCancel = none)
    (hcl : fx.close = none) :
    (runScope o fx).2 = some (reraise e) ∧
    countEv Ev.rollback (runScope o fx).1 = 1 ∧
    reraise (Exn.operational true false) = Exn.timeout := by
  have htry : tryPhase o fx =
      (o.timeout.isSome, (if o.timeout.isSome then [Ev.timerArm] else []), some e) := by
    unfold tryPhase
    rw [h1, h2, h3, h4, hb]
    simp [step]
  have hex : exceptPhase fx e = ([Ev.rollback], some (reraise e)) := by
    unfold exceptPhase
    rw [hr, hg]
    cases hd : e.deadlock <;> simp
  have hrun : runScope o fx =
      ((if o.timeout.isSome then [Ev.timerArm] else []) ++ [Ev.rollback] ++
        (if o.timeout.isSome then [Ev.timerCancel, Ev.close] else [Ev.close]),
       some (reraise e)) := by
    unfold runScope
    rw [htry]
    dsimp only
    rw [hex, finallyPhase_clean fx _ _ htc hcl]
  rw [hrun]
  refine ⟨rfl, ?_, rfl⟩
  cases h : o.timeout.isSome <;> simp [countEv, countEv_append]

/-- C2 witness: a scope with an armed 30 second timeout whose statement is
cancelled on user request rolls back and surfaces the typed Timeout. -/
theorem session_scope_reraise_rule_witness :
    (runScope c2WitOpts c2WitFx).2 = some (reraise (Exn.operational true false)) ∧
    countEv Ev.rollback (runScope c2WitOpts c2WitFx).1 = 1 ∧
    reraise (Exn.operational true false) = Exn.timeout :=
  session_scope_reraise_rule c2WitOpts c2WitFx (Exn.operational true false)
    rfl rfl rfl rfl rfl rfl rfl rfl rfl

/-! ## Scoped helper runs -/

theorem run_with_body_ok : run_with_body none = ([Ev.commit, Ev.close], none) := rfl

theorem run_with_body_error (e : Exn) :
    run_with_body (some e) = ([Ev.rollback, Ev.close], some (reraise e)) := by
  unfold run_with_body runScope tryPhase exceptPhase finallyPhase
  cases hd : e.deadlock <;> simp [pureFx, scopeDefaults, step, hd]

/-! ## C3: lock_one -/

/-- C3: lock_one with zero matching rows raises NotFound; with one matching
row whose lock is held by another transaction under NO_WAIT it raises Locked;
with one matching row whose lock is available it returns that locked record;
and in both failure cases the surrounding session_scope performs exactly one
rollback and one close, so no open transaction is left dangling. -/
theorem lock_one_spec (pred : List (String × PredVal)) (tbl : List LockRow) :
    (tbl.filter (fun x => lockMatches pred x) = [] →
      lock_one_query true pred tbl = Except.error Exn.notFound ∧
      lock_one_run true pred tbl = ([Ev.rollback, Ev.close], some Exn.notFound)) ∧
    (∀ r, tbl.filter (fun x => lockMatches pred x) = [r] → r.lockedByOther = true →
      lock_one_query true pred tbl = Except.error Exn.locked ∧
      lock_one_run true pred tbl = ([Ev.rollback, Ev.close], some Exn.locked)) ∧
    (∀ r, tbl.filter (fun x => lockMatches pred x) = [r] → r.lockedByOther = false →
      lock_one_query true pred tbl = Except.ok r) := by
  refine ⟨?_, ?_, ?_⟩
  · intro h
    have hq : lock_one_query true pred tbl = Except.error Exn.notFound := by
      unfold lock_one_query with_for_update_one
      rw [h]
      simp
    refine ⟨hq, ?_⟩
    unfold lock_one_run
    rw [hq]
    simpa [exnOfResult] using run_with_body_error Exn.notFound
  · intro r h hlock
    have hq : lock_one_query true pred tbl = Except.error Exn.locked := by
      unfold lock_one_query with_for_update_one
      rw [h]
      simp [hlock]
    refine ⟨hq, ?_⟩
    unfold lock_one_run
    rw [hq]
    simpa [exnOfResult] using run_with_body_error Exn.locked
  · intro r h hlock
    unfold lock_one_query with_for_update_one
    rw [h]
    simp [hlock]

/-- C3 witness: over concrete one-row tables the three outcomes NotFound,
Locked and success are realized, each failure with its rolled back and closed
scope. -/
theorem lock_one_spec_witness :
    (lock_one_query true predAlpha ([] : List LockRow) = Except.error Exn.notFound ∧
      lock_one_run true predAlpha [] = ([Ev.rollback, Ev.close], some Exn.notFound)) ∧
    (lock_one_query true predAlpha [rowALocked] = Except.error Exn.locked ∧
      lock_one_run true predAlpha [rowALocked] = ([Ev.rollback, Ev.close], some Exn.locked)) ∧
    lock_one_query true predAlpha [rowA] = Except.ok rowA :=
  ⟨(lock_one_spec predAlpha []).1 (by decide),
   (lock_one_spec predAlpha [rowALocked]).2.1 rowALocked (by decide) rfl,
   (lock_one_spec predAlpha [rowA]).2.2 rowA (by decide) rfl⟩

/-! ## C7: lock_by_query -/

/-- C7: over the rows matched by the query, when no matching row's lock is
contended, lock_by_query with first returns the first row or raises NotFound
when there is none; without first it requires exactly one row, raising
NotFound for zero rows, returning the single row, and raising the typed
MultipleResultsFound failure for more than one. -/
theorem lock_by_query_spec (nowait : Bool) (rows : List LockRow)
    (hnolock : rows.any (fun x => x.lockedByOther) = false) :
    (rows = [] →
      lock_by_query nowait true rows = Except.error Exn.notFound ∧
      lock_by_query nowait false rows = Except.error Exn.notFound) ∧
    (∀ r t, rows = r :: t → lock_by_query nowait true rows = Except.ok r) ∧
    (∀ r, rows = [r] → lock_by_query nowait false rows = Except.ok r) ∧
    (∀ r1 r2 t, rows = r1 :: r2 :: t →
      lock_by_query nowait false rows = Except.error Exn.multipleResultsFound) := by
  refine ⟨?_, ?_, ?_, ?_⟩
  · rintro rfl
    constructor <;> simp [lock_by_query]
  · rintro r t rfl
    have : r.lockedByOther = false := by
      simp [List.any_cons] at hnolock
      exact hnolock.1
    simp [lock_by_query, this]
  · rintro r rfl
    simp [lock_by_query, hnolock]
  · rintro r1 r2 t rfl
    simp [lock_by_query, hnolock]

/-- C7 witness: first over a nonempty table returns its head; one() raises
NotFound on the empty table and MultipleResultsFound on a two-row table. -/
theorem lock_by_query_spec_witness :
    lock_by_query true true [rowA, rowB] = Except.ok rowA ∧
    lock_by_query true false ([] : List LockRow) = Except.error Exn.notFound ∧
    lock_by_query true false [rowA] = Except.ok rowA ∧
    lock_by_query true false [rowA, rowB] = Except.error Exn.multipleResultsFound :=
  ⟨(lock_by_query_spec true [rowA, rowB] (by decide)).2.1 rowA [rowB] rfl,
   ((lock_by_query_spec true [] (by decide)).1 rfl).2,
   (lock_by_query_spec true [rowA] (by decide)).2.2.1 rowA rfl,
   (lock_by_query_spec true [rowA, rowB] (by decide)).2.2.2 rowA rowB [] rfl⟩

/-! ## C8: delete_model -/

/-- C8: deleteModel with a predicate matching zero rows returns successfully
with the table unchanged and its surrounding scope commits and closes — an
idempotent no-op, not an error; with exactly one matching row it deletes
precisely that record and keeps every other row. -/
theorem delete_model_spec (pred : List (String × PredVal)) (tbl : List Rec) :
    (tbl.filter (fun r => predMatches pred r) = [] →
      delete_model pred tbl = Except.ok tbl ∧
      delete_model_events pred tbl = ([Ev.commit, Ev.close], none)) ∧
    (∀ r, tbl.filter (fun x => predMatches pred x) = [r] →
      ∃ l, delete_model pred tbl = Except.ok l ∧ r ∉ l ∧
        ∀ x ∈ tbl, x.id ≠ r.id → x ∈ l) := by
  constructor
  · intro h
    have hd : delete_model pred tbl = Except.ok tbl := by
      unfold delete_model
      rw [h]
    refine ⟨hd, ?_⟩
    unfold delete_model_events
    rw [hd]
    exact run_with_body_ok
  · intro r h
    refine ⟨tbl.filter (fun x => x.id != r.id), ?_, ?_, ?_⟩
    · unfold delete_model
      rw [h]
    · intro hmem
      have := (List.mem_filter.mp hmem).2
      simp at this
    · intro x hx hne
      exact List.mem_filter.mpr ⟨hx, by simpa using hne⟩

/-- C8 witness: deleting a missing record from the concrete two-row table
succeeds, changes nothing and commits; deleting the unique alpha record
removes exactly it. -/
theorem delete_model_spec_witness :
    (delete_model predMissing tblWit = Except.ok tblWit ∧
      delete_model_events predMissing tblWit = ([Ev.commit, Ev.close], none)) ∧
    (∃ l, delete_model predAlpha tblWit = Except.ok l ∧
      (⟨1, [("name", PyVal.str "alpha")]⟩ : Rec) ∉ l ∧
      ∀ x ∈ tblWit, x.id ≠ 1 → x ∈ l) :=
  ⟨(delete_model_spec predMissing tblWit).1 (by decide),
   (delete_model_spec predAlpha tblWit).2 ⟨1, [("name", PyVal.str "alpha")]⟩ (by decide)⟩

/-! ## C4: list_models pagination -/

/-- C4: with limiting enabled, list_models raises the validation error for
every page below one; for every page other than one it recomputes the offset
as limit times page minus one, overriding the supplied offset; consequently
page two with limit ten yields the same sequence as page one with limit ten
and offset ten. -/
theorem list_models_pagination (limit offset : Nat) (page : Int)
    (rows : List Nat) :
    (page < 1 → list_models false limit offset page rows = Except.error Exn.valueError) ∧
    (1 ≤ page → page ≠ 1 →
      list_models false limit offset page rows =
        Except.ok ((rows.drop (limit * (page - 1).toNat)).take limit)) ∧
    list_models false 10 0 2 rows = list_models false 10 10 1 rows := by
  refine ⟨?_, ?_, ?_⟩
  · intro h
    have hle : page ≤ 0 := by omega
    simp [list_models, hle]
  · intro h1 hne
    have hle : ¬ page ≤ 0 := by omega
    simp [list_models, hle, hne]
  · have h2 : ((2 : Int) - 1).toNat = 1 := by decide
    simp [list_models, h2]

/-- C4 witness: page zero raises the validation error, and page two of a
seven-element table with limit three yields elements four to six. -/
theorem list_models_pagination_witness :
    list_models false 10 0 0 ([1, 2, 3] : List Nat) = Except.error Exn.valueError ∧
    list_models false 3 0 2 ([1, 2, 3, 4, 5, 6, 7] : List Nat) =
      Except.ok ((([1, 2, 3, 4, 5, 6, 7] : List Nat).drop (3 * ((2 : Int) - 1).toNat)).take 3) :=
  ⟨(list_models_pagination 10 0 0 [1, 2, 3]).1 (by decide),
   (list_models_pagination 3 0 2 [1, 2, 3, 4, 5, 6, 7]).2.1 (by decide) (by decide)⟩

/-! ## C5: list_models filter selection -/

/-- C5: a keyword filter is actually applied by list_models exactly when its
value is truthy, or is the explicit boolean false, or is the explicit null —
so provided empty strings and other falsy values are dropped while explicit
false and null are still applied, distinguishing unset from those falsy
values. -/
theorem list_models_filter_applied (kwargs : List (String × PyVal))
    (k : String) (v : PyVal) :
    (k, v) ∈ list_models_applied_filters kwargs ↔
      ((k, v) ∈ kwargs ∧
        (truthy v = true ∨ v = PyVal.bool false ∨ v = PyVal.none)) := by
  simp [list_models_applied_filters, List.mem_filter, filter_kept]
  tauto

/-- C5 witness: in the concrete keyword mapping the explicit false survives
filtering and the empty string does not. -/
theorem list_models_filter_applied_witness :
    ("active", PyVal.bool false) ∈ list_models_applied_filters kwargsWit ∧
    ("q", PyVal.str "") ∉ list_models_applied_filters kwargsWit :=
  ⟨(list_models_filter_applied kwargsWit "active" (PyVal.bool false)).mpr (by decide),
   fun h => absurd ((list_models_filter_applied kwargsWit "q" (PyVal.str "")).mp h)
     (by decide)⟩

/-! ## C6: get_or_create -/

theorem lookup_seedParams (pred : List (String × PredVal))
    (hnd : (pred.map Prod.fst).Nodup) (k : String) (v : PyVal)
    (hmem : (k, PredVal.val v) ∈ pred) :
    List.lookup k (seedParams pred) = some v := by
  induction pred with
  | nil => cases hmem
  | cons kv rest ih =>
    obtain ⟨k0, pv0⟩ := kv
    rw [List.map_cons, List.nodup_cons] at hnd
    obtain ⟨hk0, hndr⟩ := hnd
    cases hmem with
    | head =>
      simp [seedParams, List.lookup]
    | tail _ hrest =>
      have hkne : k ≠ k0 := by
        intro hkk
        apply hk0
        subst hkk
        exact List.mem_map.mpr ⟨(k, PredVal.val v), hrest, rfl⟩
      cases pv0 with
      | val v0 =>
        have hbeq : (k == k0) = false := by simpa using hkne
        simp only [seedParams, List.filterMap_cons]
        simp only [List.lookup, hbeq]
        exact ih hndr hrest
      | clause sat =>
        simp only [seedParams, List.filterMap_cons]
        exact ih hndr hrest

theorem predMatches_seedParams (pred : List (String × PredVal)) (n : Nat)
    (hplain : pred.all (fun kv => kv.2.isVal) = true)
    (hnd : (pred.map Prod.fst).Nodup) :
    predMatches pred ⟨n, seedParams pred⟩ = true := by
  rw [predMatches, List.all_eq_true]
  intro kv hkv
  obtain ⟨k, pv⟩ := kv
  have hv := (List.all_eq_true.mp hplain) _ hkv
  cases pv with
  | clause sat => simp [PredVal.isVal] at hv
  | val v =>
    simp only
    rw [lookup_seedParams pred hnd k v hkv]
    simp

theorem find?_append_of_none {α : Type} (p : α → Bool) (l₁ l₂ : List α)
    (h : l₁.find? p = none) : (l₁ ++ l₂).find? p = l₂.find? p := by
  induction l₁ with
  | nil => simp
  | cons a t ih =>
    rw [List.find?_eq_none] at h
    have hpa : p a = false := by
      have := h a (List.mem_cons_self a t)
      simpa using this
    rw [List.cons_append, List.find?_cons_of_neg _ (by simp [hpa])]
    apply ih
    rw [List.find?_eq_none]
    intro x hx
    exact h x (List.mem_cons_of_mem a hx)

/-- C6: when no stored record matches the predicate, getOrCreate returns a
new record together with created true, appending exactly one row whose initial
fields are precisely the non-ClauseElement subset of the predicate; and for a
plain predicate with distinct keys, a second call with the identical predicate
returns that very record with created false and leaves the store unchanged —
same identity, no duplicate row. -/
theorem get_or_create_spec (pred : List (String × PredVal)) (store : List Rec)
    (n n' : Nat)
    (hnomatch : store.find? (fun r => predMatches pred r) = none) :
    get_or_create n pred store =
      ((⟨n, seedParams pred⟩, true), store ++ [⟨n, seedParams pred⟩]) ∧
    (pred.all (fun kv => kv.2.isVal) = true → (pred.map Prod.fst).Nodup →
      get_or_create n' pred (store ++ [⟨n, seedParams pred⟩]) =
        ((⟨n, seedParams pred⟩, false), store ++ [⟨n, seedParams pred⟩])) := by
  constructor
  · unfold get_or_create
    rw [hnomatch]
  · intro hplain hnd
    unfold get_or_create
    rw [find?_append_of_none _ _ _ hnomatch]
    rw [List.find?_cons_of_pos _ (predMatches_seedParams pred n hplain hnd)]

/-- C6 witness: creating the alpha record in an empty store returns it with
created true, and the identical second call returns the same record with
created false and no second row. -/
theorem get_or_create_spec_witness :
    get_or_create 7 predAlpha [] =
      ((⟨7, seedParams predAlpha⟩, true), [] ++ [⟨7, seedParams predAlpha⟩]) ∧
    get_or_create 8 predAlpha ([] ++ [⟨7, seedParams predAlpha⟩]) =
      ((⟨7, seedParams predAlpha⟩, false), [] ++ [⟨7, seedParams predAlpha⟩]) :=
  ⟨(get_or_create_spec predAlpha [] 7 8 rfl).1,
   (get_or_create_spec predAlpha [] 7 8 rfl).2 rfl (by decide)⟩

/-- C6 counterexample: with a predicate containing only a relational
expression, the creating call seeds none of its fields, so the created record
does not satisfy the predicate and the identical second call creates a second
row and returns it with created true — a different record identity and a
duplicate row, contrary to the claimed unconditional (recordA, true) then
(recordA, false) roundtrip. -/
theorem get_or_create_clause_duplicate :
    (get_or_create 0 predClause []).1 = ((⟨0, []⟩ : Rec), true) ∧
    (get_or_create 1 predClause (get_or_create 0 predClause []).2).1 =
      ((⟨1, []⟩ : Rec), true) ∧
    (get_or_create 1 predClause (get_or_create 0 predClause []).2).2 =
      [(⟨0, []⟩ : Rec), (⟨1, []⟩ : Rec)] ∧
    ((⟨1, []⟩ : Rec) ≠ (⟨0, []⟩ : Rec)) :=
  ⟨rfl, rfl, rfl, by decide⟩

/-! ## C9: engine lifecycle -/

/-- C9: prepare_module on an already prepared state is a no-op preserving the
engines and the session factory; shutdown_module disposes both pools and
resets every lifecycle global to uninitialized; a subsequent prepare_module
lazily re-initializes with a fresh engine identity, never reusing the
pre-shutdown pool identity. -/
theorem module_lifecycle_spec (st : ModuleState) (fresh : Nat)
    (hp : st.prepared = true) :
    prepare_module st fresh = (st, fresh) ∧
    (shutdown_module st).1 = ⟨false, none, none, none⟩ ∧
    (∀ e r, st.engine = some e → st.roEngine = some r →
      (shutdown_module st).2 = [e, r]) ∧
    ((prepare_module (shutdown_module st).1 fresh).1.prepared = true ∧
      (prepare_module (shutdown_module st).1 fresh).1.engine = some fresh) ∧
    (∀ e, st.engine = some e → e < fresh → st.engine ≠ some fresh) := by
  refine ⟨?_, ?_, ?_, ?_, ?_⟩
  · simp [prepare_module, hp]
  · simp [shutdown_module, hp]
  · intro e r he hr
    simp [shutdown_module, hp, he, hr]
  · simp [shutdown_module, prepare_module, hp]
  · intro e he hlt hcontra
    rw [he] at hcontra
    have : e = fresh := by injection hcontra
    omega

/-- C9 witness: a prepared state with engine identities zero, one and two is
left untouched by prepare_module, fully reset and disposed by
shutdown_module, and re-initialized with the fresh identity ten. -/
theorem module_lifecycle_spec_witness :
    prepare_module ⟨true, some 0, some 1, some 2⟩ 10 = (⟨true, some 0, some 1, some 2⟩, 10) ∧
    (shutdown_module ⟨true, some 0, some 1, some 2⟩).1 = ⟨false, none, none, none⟩ ∧
    (shutdown_module ⟨true, some 0, some 1, some 2⟩).2 = [0, 1] ∧
    (prepare_module (shutdown_module ⟨true, some 0, some 1, some 2⟩).1 10).1.engine = some 10 ∧
    (⟨true, some 0, some 1, some 2⟩ : ModuleState).engine ≠ some 10 :=
  ⟨(module_lifecycle_spec ⟨true, some 0, some 1, some 2⟩ 10 rfl).1,
   (module_lifecycle_spec ⟨true, some 0, some 1, some 2⟩ 10 rfl).2.1,
   (module_lifecycle_spec ⟨true, some 0, some 1, some 2⟩ 10 rfl).2.2.1 0 1 rfl rfl,
   (module_lifecycle_spec ⟨true, some 0, some 1, some 2⟩ 10 rfl).2.2.2.1.2,
   (module_lifecycle_spec ⟨true, some 0, some 1, some 2⟩ 10 rfl).2.2.2.2 0 rfl (by decide)⟩

/-! ## C10: application_name quoting -/

set_option maxRecDepth 8192 in
theorem quoteByte_no_squote : ∀ b, b < 256 → squote ∉ quoteByte b := by
  decide

theorem urlquote_no_squote (bs : List Nat) (h : ∀ b ∈ bs, b < 256) :
    squote ∉ urlquote bs := by
  induction bs with
  | nil => simp [urlquote]
  | cons b t ih =>
    simp only [urlquote, List.map_cons, List.flatten_cons]
    intro hmem
    rcases List.mem_append.mp hmem with h1 | h2
    · exact quoteByte_no_squote b (h b (List.mem_cons_self b t)) h1
    · exact ih (fun x hx => h x (List.mem_cons_of_mem b hx)) h2

/-- C10: for every application name (as UTF-8 bytes), the percent-quoted form
interpolated into the SET application_name statement contains no single-quote
character, and the full statement contains exactly the two delimiting quotes —
so no application name can terminate the string literal or inject SQL. -/
theorem application_name_quoting (bs : List Nat) (h : ∀ b ∈ bs, b < 256) :
    squote ∉ urlquote bs ∧
    (set_application_name_sql bs).count squote = 2 := by
  have hq := urlquote_no_squote bs h
  refine ⟨hq, ?_⟩
  unfold set_application_name_sql
  rw [List.count_append, List.count_append, List.count_append]
  rw [List.count_eq_zero.mpr hq]
  decide

/-- C10 witness: the UTF-8 bytes of a name containing a single quote — the
quote is percent-encoded away and the statement keeps exactly its two
delimiting quotes. -/
theorem application_name_quoting_witness :
    squote ∉ urlquote [101, 118, 105, 108, 39, 110, 97, 109, 101] ∧
    (set_application_name_sql [101, 118, 105, 108, 39, 110, 97, 109, 101]).count squote = 2 :=
  application_name_quoting [101, 118, 105, 108, 39, 110, 97, 109, 101] (by decide)
